import Mathlib

/-!
# Verification of the tiered conversational memory engine

Shallow embedding of the memory subsystem of the Sadaf voice-assistant
repository (`memory/conversational_memory.py`, `memory/knowledge_base.py`,
`memory/llm_summarizer.py`, constants from `config.py`).

Modelling conventions:
* Python `deque(maxlen=k)` becomes a Lean `List` together with append
  helpers that reproduce the bounded-deque semantics (for `buffer_deque`
  the list front is the oldest element, i.e. `append` adds at the back and
  `popleft` removes the front; for `summary_deque` the list front is the
  newest element, i.e. `appendleft` adds at the front and `pop` removes
  the back).
* External services (the Ollama embedding endpoint, the Chroma vector
  metric, the structured-generation LLM, `uuid.uuid4()` and
  `datetime.now()`) are parameters collected in an `Env` record.  The
  embedding service is an oracle indexed by a call counter, so that
  per-call failures and the number of service calls are both expressible.
* Python exceptions are modelled with `Except Unit`: every operation
  returns its (already mutated) state together with either `.ok` or
  `.error`, matching the fact that in Python the mutations performed
  before a `raise` survive the exception.
* Distances/similarities are modelled with `ℤ` (the code's arithmetic on
  them is `1 - distance` and a `>=` comparison only).
* Ghost observation fields (`queryCount`, `summarizerCalls`,
  `persistCalls`, the embedding call counter) record which external calls
  were issued; they are write-only instrumentation appended exactly at
  the corresponding call sites and influence no branch.
-/

/-- Constant `BUFFER_SIZE` from `config.py` (short-term buffer capacity). -/
def BUFFER_SIZE : Nat := 10

/-- Constant `SUMMARY_SIZE` from `config.py` (summary window capacity). -/
def SUMMARY_SIZE : Nat := 5

/-- Constant `N_FACTS_CONTEXT` from `config.py` (facts retrieved per query). -/
def N_FACTS_CONTEXT : Nat := 3

/-- One dialogue turn `(user, ai)` as appended by
`ConversationManager.process_turn`. -/
structure Turn where
  user : String
  ai : String
deriving Repr, DecidableEq

/-- `EntityRelation` from `memory/pydantic_model.py`. -/
structure EntityRelation where
  entity1 : String
  relation : String
  entity2 : String
deriving Repr, DecidableEq

/-- `Context` from `memory/pydantic_model.py` (a digest): required summary,
three optional fields, and a timestamp defaulted to creation time. -/
structure Context where
  summary : String
  entity_relations : Option (List EntityRelation)
  experiential_facts : Option (List String)
  personal_facts : Option (List String)
  timestamp : String
deriving Repr, DecidableEq

/-- The sentinel summary string produced by
`ConversationSummarizer.summarize_conversation` on failure and tested by
`ConversationManager._store_facts_if_worthy`. -/
def errorSummary : String := "Error occurred during summarization"

/-- Environment of external collaborators (spec §6).  `Emb` is the
embedding-vector type of the vector store.

* `embedFn k t` is the result of the `k`-th call to the Ollama embedding
  service when asked for text `t` (`get_ollama_embedding`): either a
  vector or a service failure.
* `dist` is the metric used by the Chroma collection (smaller = closer).
* `threshold` is the duplicate-similarity threshold `THRESHOLD`
  (imported by `memory/knowledge_base.py` from `config`; `config.py`
  does not actually define it, so it is kept as a parameter of the
  configuration surface).
* `llm ts` is the structured-generation delegate
  (`GLOBAL_LLM.with_structured_output(Context).invoke`): a `Context` or
  any failure (exception / malformed output).
* `now` is `datetime.now().isoformat()`.
* `freshId k` is the `k`-th freshly generated `uuid.uuid4()` string. -/
structure Env (Emb : Type) where
  embedFn : Nat → String → Except Unit Emb
  dist : Emb → Emb → ℤ
  threshold : ℤ
  llm : List Turn → Except Unit Context
  now : String
  freshId : Nat → String

/-- Insert a `(text, distance)` pair into a list sorted by ascending
distance (model of the ranked results returned by a Chroma query). -/
def insertByDist (p : String × ℤ) : List (String × ℤ) → List (String × ℤ)
  | [] => [p]
  | q :: rest => if p.2 ≤ q.2 then p :: q :: rest else q :: insertByDist p rest

/-- Sort `(text, distance)` pairs by ascending distance: the ranked
(nearest-first) order in which the Chroma collection returns results. -/
def sortByDist : List (String × ℤ) → List (String × ℤ)
  | [] => []
  | p :: rest => insertByDist p (sortByDist rest)

/-- A stored fact record (document, metadata, embedding) of a Chroma
collection. -/
structure FactRecord (Emb : Type) where
  id : String
  text : String
  metadata : List (String × String)
  embedding : Emb
deriving Repr, DecidableEq

/-- State of one `ChromaStore` collection.  `uuidCount` indexes the
`uuid.uuid4()` stream; `queryCount` is a ghost counter of how many
nearest-neighbor queries were issued against this collection. -/
structure ChromaStore (Emb : Type) where
  records : List (FactRecord Emb)
  uuidCount : Nat
  queryCount : Nat
deriving Repr, DecidableEq

/-- `collection.query(query_embeddings=[e], n_results=k)`: the `k`
nearest stored documents with their distances, nearest first.  Bumps the
ghost query counter. -/
def queryNearest {Emb : Type} (env : Env Emb) (st : ChromaStore Emb) (e : Emb)
    (k : Nat) : ChromaStore Emb × List (String × ℤ) :=
  ({ st with queryCount := st.queryCount + 1 },
   (sortByDist (st.records.map fun r => (r.text, env.dist e r.embedding))).take k)

/-- Python-dict style upsert used for `metadata["timestamp"] = ...`. -/
def dictInsert (m : List (String × String)) (k v : String) :
    List (String × String) :=
  m.filter (fun p => p.1 ≠ k) ++ [(k, v)]

/-- `ChromaStore._is_duplicate` (Python name `_is_duplicate`): embed the
text (one service call), query the single nearest neighbor, compare
`similarity = 1 - distance` against the threshold; any exception is
swallowed and reported as "not a duplicate".  Returns the store (with
ghost counters), the advanced embed-call counter, and the verdict. -/
def is_duplicate {Emb : Type} (env : Env Emb) (st : ChromaStore Emb) (n : Nat)
    (text : String) : ChromaStore Emb × Nat × Bool :=
  match env.embedFn n text with
  | .error _ => (st, n + 1, false)
  | .ok emb =>
    match queryNearest env st emb 1 with
    | (st', res) =>
      match res with
      | [] => (st', n + 1, false)
      | (_doc, d) :: _ => (st', n + 1, decide (env.threshold ≤ 1 - d))

/-- Pure answer of the duplicate check once the query embedding `e` is
known: is the nearest stored document within the similarity threshold? -/
def isDupPure {Emb : Type} (env : Env Emb) (st : ChromaStore Emb) (e : Emb) :
    Bool :=
  match (sortByDist (st.records.map fun r => (r.text, env.dist e r.embedding))).head? with
  | none => false
  | some p => decide (env.threshold ≤ 1 - p.2)

/-- `ChromaStore.add_document`: skip as `"DUPLICATE_SKIPPED"` when the
duplicate check fires; otherwise generate a fresh id, stamp the metadata
with a creation timestamp, embed the text a second time and store the
record.  A failure of the second embedding call propagates (`raise`)
with nothing stored. -/
def add_document {Emb : Type} (env : Env Emb) (st : ChromaStore Emb) (n : Nat)
    (text : String) (md : Option (List (String × String))) :
    ChromaStore Emb × Nat × Except Unit String :=
  match is_duplicate env st n text with
  | (st1, n1, true) => (st1, n1, .ok "DUPLICATE_SKIPPED")
  | (st1, n1, false) =>
    let doc_id := env.freshId st1.uuidCount
    let metadata := dictInsert (md.getD []) "timestamp" env.now
    match env.embedFn n1 text with
    | .error e => ({ st1 with uuidCount := st1.uuidCount + 1 }, n1 + 1, .error e)
    | .ok emb =>
      ({ st1 with
          records := st1.records ++ [⟨doc_id, text, metadata, emb⟩],
          uuidCount := st1.uuidCount + 1 }, n1 + 1, .ok doc_id)

/-- `ChromaStore.get_relevant_info`: embed the query, fetch the `k`
nearest facts, format them as `- fact` lines (nearest first); any
exception yields the empty string. -/
def get_relevant_info {Emb : Type} (env : Env Emb) (st : ChromaStore Emb)
    (n : Nat) (query : String) (k : Nat) : ChromaStore Emb × Nat × String :=
  match env.embedFn n query with
  | .error _ => (st, n + 1, "")
  | .ok e =>
    match queryNearest env st e k with
    | (st', res) =>
      (st', n + 1, String.intercalate "\n" (res.map fun p => "- " ++ p.1))

/-- A fresh, empty Chroma collection. -/
def emptyStore {Emb : Type} : ChromaStore Emb :=
  { records := [], uuidCount := 0, queryCount := 0 }

/-- `ConversationSummarizer.summarize_conversation`: invoke the
structured-generation delegate; on success return its digest, on any
failure return the sentinel digest (summary = error string, all fact
fields absent, timestamp defaulted). -/
def summarize_conversation {Emb : Type} (env : Env Emb) (data : List Turn) :
    Context :=
  match env.llm data with
  | .ok ctx => ctx
  | .error _ =>
    { summary := errorSummary
      entity_relations := none
      experiential_facts := none
      personal_facts := none
      timestamp := env.now }

/-- `deque.append` on a `deque(maxlen=maxlen)` whose list front is the
oldest element: when full, the oldest element is silently discarded. -/
def dequeAppendRight {α : Type} (maxlen : Nat) (xs : List α) (x : α) : List α :=
  if maxlen = 0 then xs
  else if xs.length = maxlen then xs.tail ++ [x]
  else xs ++ [x]

/-- `deque.appendleft` on a `deque(maxlen=maxlen)` whose list front is
the newest element: when full, the oldest (back) element is silently
discarded. -/
def dequeAppendLeft {α : Type} (maxlen : Nat) (xs : List α) (x : α) : List α :=
  if maxlen = 0 then xs
  else if xs.length = maxlen then x :: xs.dropLast
  else x :: xs

/-- State of a `ConversationManager`.

* `buffer_deque`: short-term turn buffer (front = oldest);
  `bufferMax` is its `maxlen` (`BUFFER_SIZE` in `config.py`, kept as a
  construction parameter per the configuration surface of spec §6).
* `summary_deque`: mid-term summary window (front = newest);
  `summaryMax` is its `maxlen` (`SUMMARY_SIZE`).
* `experiential_store`, `personal_store`: the two Chroma collections.
* `expFactsStored`, `persFactsStored`: the session audit lists
  `_list_of_experiential_facts_stored_from_conversation` and
  `_list_of_personal_facts_stored_from_conversation`.
* `embedCalls`: index of the next embedding-service call (ghost).
* `summarizerCalls`: ghost log of every batch of turns handed to
  `summarizer.summarize_conversation`.
* `persistCalls`: ghost log of every digest handed to
  `_store_facts_if_worthy`. -/
structure Manager (Emb : Type) where
  buffer_deque : List Turn
  bufferMax : Nat
  summary_deque : List Context
  summaryMax : Nat
  experiential_store : ChromaStore Emb
  personal_store : ChromaStore Emb
  expFactsStored : List String
  persFactsStored : List String
  embedCalls : Nat
  summarizerCalls : List (List Turn)
  persistCalls : List Context
deriving Repr

/-- `ConversationManager.__init__` with the two capacities taken from the
configuration surface (`BUFFER_SIZE`, `SUMMARY_SIZE` in `config.py`). -/
def Manager.init {Emb : Type} (bufferMax summaryMax : Nat) : Manager Emb :=
  { buffer_deque := []
    bufferMax := bufferMax
    summary_deque := []
    summaryMax := summaryMax
    experiential_store := emptyStore
    personal_store := emptyStore
    expFactsStored := []
    persFactsStored := []
    embedCalls := 0
    summarizerCalls := []
    persistCalls := [] }

/-- Python's `str.strip()`: remove whitespace from both ends (written
with structural recursion over the character list so that it evaluates
inside the kernel). -/
def pyStrip (s : String) : String :=
  ⟨((s.data.dropWhile Char.isWhitespace).reverse.dropWhile
      Char.isWhitespace).reverse⟩

/-- The per-fact loop body of `_store_facts_if_worthy` for one category:
for each fact, if `fact and fact.strip()` is truthy, `add_document` it
and append it to the audit list; a `raise` escaping `add_document`
aborts the loop (later facts are not processed, the failing fact is not
appended). -/
def storeFactLoop {Emb : Type} (env : Env Emb) (st : ChromaStore Emb) (n : Nat)
    (audit : List String) :
    List String → ChromaStore Emb × Nat × List String × Except Unit Unit
  | [] => (st, n, audit, .ok ())
  | f :: rest =>
    if f ≠ "" ∧ pyStrip f ≠ "" then
      match add_document env st n f none with
      | (st', n', .ok _) => storeFactLoop env st' n' (audit ++ [f]) rest
      | (st', n', .error e) => (st', n', audit, .error e)
    else
      storeFactLoop env st n audit rest

/-- `ConversationManager._store_facts_if_worthy` (Python name
`_store_facts_if_worthy`): skip entirely when the digest's summary is the
sentinel error string; otherwise push every non-blank experiential fact
and then every non-blank personal fact through the corresponding store's
`add_document`, appending each processed fact to the session audit list.
The ghost `persistCalls` log records the digest offered for
persistence. -/
def store_facts_if_worthy {Emb : Type} (env : Env Emb) (m : Manager Emb)
    (ctx : Context) : Manager Emb × Except Unit Unit :=
  let m := { m with persistCalls := m.persistCalls ++ [ctx] }
  if ctx.summary ≠ errorSummary then
    match storeFactLoop env m.experiential_store m.embedCalls m.expFactsStored
        (ctx.experiential_facts.getD []) with
    | (est, n1, ea, .error e) =>
      ({ m with experiential_store := est, embedCalls := n1,
                expFactsStored := ea }, .error e)
    | (est, n1, ea, .ok _) =>
      match storeFactLoop env m.personal_store n1 m.persFactsStored
          (ctx.personal_facts.getD []) with
      | (pst, n2, pa, r2) =>
        ({ m with experiential_store := est, embedCalls := n2,
                  expFactsStored := ea, personal_store := pst,
                  persFactsStored := pa }, r2)
  else (m, .ok ())

/-- `ConversationManager._handle_summary` (Python name `_handle_summary`):
`appendleft` the digest into the summary window; if the window length now
equals its `maxlen`, `pop` the oldest (back) digest and offer it for
persistence.  (`pop` on an empty deque raises, which can only happen when
`maxlen = 0`.) -/
def handle_summary {Emb : Type} (env : Env Emb) (m : Manager Emb)
    (ctx : Context) : Manager Emb × Except Unit Unit :=
  let m := { m with
    summary_deque := dequeAppendLeft m.summaryMax m.summary_deque ctx }
  if m.summary_deque.length = m.summaryMax then
    match m.summary_deque.getLast? with
    | some old =>
      store_facts_if_worthy env
        { m with summary_deque := m.summary_deque.dropLast } old
    | none => (m, .error ())
  else (m, .ok ())

/-- `ConversationManager._summarize_and_store_half` (Python name
`_summarize_and_store_half`): `popleft` the oldest `len // 2` turns,
summarize them and feed the digest to the summary window; no-op when
`len // 2 = 0`.  The ghost `summarizerCalls` log records the batch. -/
def summarize_and_store_half {Emb : Type} (env : Env Emb) (m : Manager Emb) :
    Manager Emb × Except Unit Unit :=
  let half := m.buffer_deque.length / 2
  if half = 0 then (m, .ok ())
  else
    let data := m.buffer_deque.take half
    let m := { m with
      buffer_deque := m.buffer_deque.drop half,
      summarizerCalls := m.summarizerCalls ++ [data] }
    handle_summary env m (summarize_conversation env data)

/-- `ConversationManager.process_turn`: append the turn to the buffer;
when the buffer length equals its `maxlen`, summarize and store half. -/
def process_turn {Emb : Type} (env : Env Emb) (m : Manager Emb)
    (user ai : String) : Manager Emb × Except Unit Unit :=
  let m := { m with
    buffer_deque := dequeAppendRight m.bufferMax m.buffer_deque ⟨user, ai⟩ }
  if m.buffer_deque.length = m.bufferMax then
    summarize_and_store_half env m
  else (m, .ok ())

/-- `ConversationManager.get_context_for_ai`: renders the last (up to) 7
buffered turns as `User:`/`AI:` lines, the summary-window summaries
newest-first, and the top `N_FACTS_CONTEXT` facts of each category for
the query, into the fixed four-section template. -/
def get_context_for_ai {Emb : Type} (env : Env Emb) (m : Manager Emb)
    (user_query : String) : Manager Emb × String :=
  let recent_conv := String.intercalate "\n"
    ((m.buffer_deque.drop (m.buffer_deque.length - 7)).map
      fun t => "User: " ++ t.user ++ "\nAI: " ++ t.ai)
  let summary_memory := String.intercalate "\n"
    (m.summary_deque.map Context.summary)
  match get_relevant_info env m.experiential_store m.embedCalls user_query
      N_FACTS_CONTEXT with
  | (est, n1, experiential_info) =>
    match get_relevant_info env m.personal_store n1 user_query
        N_FACTS_CONTEXT with
    | (pst, n2, personal_info) =>
      ({ m with experiential_store := est, personal_store := pst,
                embedCalls := n2 },
       "\n--- Current Conversation ---\n" ++ recent_conv
         ++ "\n            \n--- Past Conversation Summary ---\n"
         ++ summary_memory
         ++ "\n            \n--- Relevant Long-Term Experiential Facts ---\n"
         ++ experiential_info
         ++ "\n\n--- Relevant Long-Term Personal Facts ---\n"
         ++ personal_info ++ "\n")

/-- The `for ctx in list(self.summary_deque)` loop of `end_conversation`:
offer each resident digest (newest first, the deque's iteration order)
for persistence; an escaping exception aborts the loop. -/
def flushSummaries {Emb : Type} (env : Env Emb) (m : Manager Emb) :
    List Context → Manager Emb × Except Unit Unit
  | [] => (m, .ok ())
  | c :: rest =>
    match store_facts_if_worthy env m c with
    | (m', .ok _) => flushSummaries env m' rest
    | (m', .error e) => (m', .error e)

/-- `ConversationManager.end_conversation`: flush every digest still in
the summary window, then (if any turns remain buffered) summarize the
entire remainder as one final digest and persist it, then clear both
deques and return the confirmation string. -/
def end_conversation {Emb : Type} (env : Env Emb) (m : Manager Emb) :
    Manager Emb × Except Unit String :=
  match flushSummaries env m m.summary_deque with
  | (m, .error e) => (m, .error e)
  | (m, .ok _) =>
    if m.buffer_deque ≠ [] then
      let data := m.buffer_deque
      let m := { m with summarizerCalls := m.summarizerCalls ++ [data] }
      match store_facts_if_worthy env m (summarize_conversation env data) with
      | (m, .error e) => (m, .error e)
      | (m, .ok _) =>
        ({ m with buffer_deque := [], summary_deque := [] },
         .ok "Conversation ended and stored successfully.")
    else
      ({ m with buffer_deque := [], summary_deque := [] },
       .ok "Conversation ended and stored successfully.")

/-- Run a sequence of `process_turn` calls from the conversation driver;
an escaping exception stops the run. -/
def runTurns {Emb : Type} (env : Env Emb) (m : Manager Emb) :
    List (String × String) → Manager Emb × Except Unit Unit
  | [] => (m, .ok ())
  | (u, a) :: rest =>
    match process_turn env m u a with
    | (m', .ok _) => runTurns env m' rest
    | (m', .error e) => (m', .error e)
lemma store_facts_buffer {Emb : Type} (env : Env Emb) (m : Manager Emb)
    (ctx : Context) :
    (store_facts_if_worthy env m ctx).1.buffer_deque = m.buffer_deque := by
  simp only [store_facts_if_worthy]
  split
  · split <;> simp
  · simp

lemma store_facts_scalls {Emb : Type} (env : Env Emb) (m : Manager Emb)
    (ctx : Context) :
    (store_facts_if_worthy env m ctx).1.summarizerCalls = m.summarizerCalls := by
  simp only [store_facts_if_worthy]
  split
  · split <;> simp
  · simp

lemma store_facts_pcalls {Emb : Type} (env : Env Emb) (m : Manager Emb)
    (ctx : Context) :
    (store_facts_if_worthy env m ctx).1.persistCalls = m.persistCalls ++ [ctx] := by
  simp only [store_facts_if_worthy]
  split
  · split <;> simp
  · simp

lemma store_facts_sdeque {Emb : Type} (env : Env Emb) (m : Manager Emb)
    (ctx : Context) :
    (store_facts_if_worthy env m ctx).1.summary_deque = m.summary_deque := by
  simp only [store_facts_if_worthy]
  split
  · split <;> simp
  · simp

lemma store_facts_bmax {Emb : Type} (env : Env Emb) (m : Manager Emb)
    (ctx : Context) :
    (store_facts_if_worthy env m ctx).1.bufferMax = m.bufferMax := by
  simp only [store_facts_if_worthy]
  split
  · split <;> simp
  · simp

lemma handle_summary_buffer {Emb : Type} (env : Env Emb) (m : Manager Emb)
    (ctx : Context) :
    (handle_summary env m ctx).1.buffer_deque = m.buffer_deque := by
  simp only [handle_summary]
  split
  · split <;> simp [store_facts_buffer]
  · simp

lemma handle_summary_scalls {Emb : Type} (env : Env Emb) (m : Manager Emb)
    (ctx : Context) :
    (handle_summary env m ctx).1.summarizerCalls = m.summarizerCalls := by
  simp only [handle_summary]
  split
  · split <;> simp [store_facts_scalls]
  · simp

lemma handle_summary_bmax {Emb : Type} (env : Env Emb) (m : Manager Emb)
    (ctx : Context) :
    (handle_summary env m ctx).1.bufferMax = m.bufferMax := by
  simp only [handle_summary]
  split
  · split <;> simp [store_facts_bmax]
  · simp

lemma handle_summary_sdeque_full {Emb : Type} (env : Env Emb) (m : Manager Emb)
    (ctx : Context) (h0 : 1 ≤ m.summaryMax)
    (h : m.summary_deque.length + 1 = m.summaryMax) :
    (handle_summary env m ctx).1.summary_deque = (ctx :: m.summary_deque).dropLast ∧
    (handle_summary env m ctx).1.persistCalls =
      m.persistCalls ++ [(ctx :: m.summary_deque).getLast (by simp)] := by
  have hmax0 : m.summaryMax ≠ 0 := by omega
  have hne : m.summary_deque.length ≠ m.summaryMax := by omega
  have hlast : (ctx :: m.summary_deque).getLast? =
      some ((ctx :: m.summary_deque).getLast (by simp)) :=
    List.getLast?_eq_getLast _ _
  simp only [handle_summary, dequeAppendLeft, if_neg hmax0, if_neg hne]
  rw [if_pos (by simpa using h), hlast]
  simp [store_facts_sdeque, store_facts_pcalls]

/-- C1: a `process_turn` that leaves the buffer below `BUFFER_SIZE`
after the append does nothing but append (no summarization is
triggered); a `process_turn` that makes the buffer reach its capacity
`C = bufferMax` removes exactly `⌊C/2⌋` oldest turns, passes precisely
that batch to the summarizer, and leaves the remaining `C − ⌊C/2⌋`
turns in the buffer as a contiguous suffix (relative order
preserved). -/
theorem C1_process_turn_half_drain {Emb : Type} (env : Env Emb)
    (m : Manager Emb) (u a : String)
    (hlen : m.buffer_deque.length < m.bufferMax) :
    (m.buffer_deque.length + 1 < m.bufferMax →
      process_turn env m u a =
        ({ m with buffer_deque := m.buffer_deque ++ [Turn.mk u a] }, .ok ())) ∧
    (m.buffer_deque.length + 1 = m.bufferMax → 2 ≤ m.bufferMax →
      (process_turn env m u a).1.buffer_deque =
          (m.buffer_deque ++ [Turn.mk u a]).drop (m.bufferMax / 2) ∧
      (process_turn env m u a).1.summarizerCalls =
          m.summarizerCalls ++ [(m.buffer_deque ++ [Turn.mk u a]).take (m.bufferMax / 2)] ∧
      ((m.buffer_deque ++ [Turn.mk u a]).take (m.bufferMax / 2)).length = m.bufferMax / 2 ∧
      (process_turn env m u a).1.buffer_deque.length = m.bufferMax - m.bufferMax / 2) := by
  have hmax0 : m.bufferMax ≠ 0 := by omega
  have hne : m.buffer_deque.length ≠ m.bufferMax := by omega
  constructor
  · intro hlt
    have hne2 : (m.buffer_deque ++ [Turn.mk u a]).length ≠ m.bufferMax := by
      simp; omega
    simp only [process_turn, dequeAppendRight, if_neg hmax0, if_neg hne, if_neg hne2]
  · intro heq h2
    have hfull : (m.buffer_deque ++ [Turn.mk u a]).length = m.bufferMax := by
      simp; omega
    have hhalf : m.bufferMax / 2 ≠ 0 := by omega
    simp only [process_turn, dequeAppendRight, if_neg hmax0, if_neg hne, hfull,
      ite_true, eq_self_iff_true, summarize_and_store_half, if_neg hhalf]
    refine ⟨?_, ?_, ?_, ?_⟩
    · rw [handle_summary_buffer]
    · rw [handle_summary_scalls]
    · rw [List.length_take]
      simp; omega
    · rw [handle_summary_buffer]
      simp only [List.length_drop]
      rw [hfull]

/-- A concrete environment over the trivial embedding type: every
embedding call succeeds, every stored pair is at distance 1 (similarity
0, below the threshold 1, so nothing is ever a duplicate), and the
delegate summarizes a batch into a digest carrying one experiential fact
derived from the batch's first user utterance. -/
def envU : Env Unit :=
  { embedFn := fun _ _ => .ok ()
    dist := fun _ _ => 1
    threshold := 1
    llm := fun ts => .ok
      { summary := "sum-" ++ ((ts.head?.getD (Turn.mk "" "")).user)
        entity_relations := none
        experiential_facts := some ["fact-" ++ ((ts.head?.getD (Turn.mk "" "")).user)]
        personal_facts := none
        timestamp := "T" }
    now := "NOW"
    freshId := fun k => "id" ++ toString k }

/-- Nine buffered turns, one short of the default capacity 10. -/
def nineTurns : List Turn :=
  [Turn.mk "u1" "a1", Turn.mk "u2" "a2", Turn.mk "u3" "a3", Turn.mk "u4" "a4",
   Turn.mk "u5" "a5", Turn.mk "u6" "a6", Turn.mk "u7" "a7", Turn.mk "u8" "a8",
   Turn.mk "u9" "a9"]

/-- A manager at default capacities whose buffer holds nine turns. -/
def mC1 : Manager Unit :=
  { Manager.init BUFFER_SIZE SUMMARY_SIZE with buffer_deque := nineTurns }

/-- Witness for C1 at `BUFFER_SIZE = 10`: the tenth turn triggers the
half-drain, removing the oldest five turns as one summarizer batch and
retaining the suffix of five. -/
theorem C1_process_turn_half_drain_witness :
    (process_turn envU mC1 "u10" "a10").1.buffer_deque =
        (mC1.buffer_deque ++ [Turn.mk "u10" "a10"]).drop (mC1.bufferMax / 2) ∧
    (process_turn envU mC1 "u10" "a10").1.summarizerCalls =
        mC1.summarizerCalls ++
          [(mC1.buffer_deque ++ [Turn.mk "u10" "a10"]).take (mC1.bufferMax / 2)] ∧
    ((mC1.buffer_deque ++ [Turn.mk "u10" "a10"]).take (mC1.bufferMax / 2)).length =
        mC1.bufferMax / 2 ∧
    (process_turn envU mC1 "u10" "a10").1.buffer_deque.length =
        mC1.bufferMax - mC1.bufferMax / 2 :=
  (C1_process_turn_half_drain envU mC1 "u10" "a10" (by decide)).2
    (by decide) (by decide)

/-- A digest with the given summary and no fact payload. -/
def digestOnly (s : String) : Context :=
  { summary := s, entity_relations := none, experiential_facts := none,
    personal_facts := none, timestamp := "" }

/-- A manager over the trivial embedding type whose summary window has
capacity 2 (the configuration of the C2 scenario). -/
def mC2 : Manager Unit := Manager.init BUFFER_SIZE 2

/-- C2 counterexample: with window capacity `M = 2`, ingesting digests
`d1, d2, d3` does NOT leave the window `[d3, d2]` with only `d1` offered
for persistence; the code evicts as soon as the window reaches capacity
after an insert, so `d1` is evicted already on ingesting `d2`, `d2` on
ingesting `d3`, and the window finally holds `[d3]` only. -/
theorem C2_counterexample :
    ((handle_summary envU
        ((handle_summary envU
          ((handle_summary envU mC2 (digestOnly "d1")).1)
          (digestOnly "d2")).1)
        (digestOnly "d3")).1.summary_deque = [digestOnly "d3"] ∧
     (handle_summary envU
        ((handle_summary envU
          ((handle_summary envU mC2 (digestOnly "d1")).1)
          (digestOnly "d2")).1)
        (digestOnly "d3")).1.persistCalls = [digestOnly "d1", digestOnly "d2"]) ∧
    ¬ ((handle_summary envU
        ((handle_summary envU
          ((handle_summary envU mC2 (digestOnly "d1")).1)
          (digestOnly "d2")).1)
        (digestOnly "d3")).1.summary_deque = [digestOnly "d3", digestOnly "d2"] ∧
       (handle_summary envU
        ((handle_summary envU
          ((handle_summary envU mC2 (digestOnly "d1")).1)
          (digestOnly "d2")).1)
        (digestOnly "d3")).1.persistCalls = [digestOnly "d1"]) := by
  refine ⟨⟨?_, ?_⟩, ?_⟩ <;> decide

/-- C2 (amended): inserting a digest into the summary window puts it at
the front; while the window stays below capacity `M` after the insert
nothing is evicted, and as soon as the window reaches capacity `M` after
the insert the oldest (tail) entry is evicted and offered for
persistence, so the window retains `M − 1` digests after an eviction
(not `M`). -/
theorem C2_summary_window_eviction {Emb : Type} (env : Env Emb)
    (m : Manager Emb) (ctx : Context) (h0 : 1 ≤ m.summaryMax) :
    (m.summary_deque.length + 1 < m.summaryMax →
      handle_summary env m ctx =
        ({ m with summary_deque := ctx :: m.summary_deque }, .ok ())) ∧
    (m.summary_deque.length + 1 = m.summaryMax →
      (handle_summary env m ctx).1.summary_deque = (ctx :: m.summary_deque).dropLast ∧
      (handle_summary env m ctx).1.summary_deque.length + 1 = m.summaryMax ∧
      (handle_summary env m ctx).1.persistCalls =
        m.persistCalls ++ [(ctx :: m.summary_deque).getLast (by simp)]) := by
  have hmax0 : m.summaryMax ≠ 0 := by omega
  constructor
  · intro hlt
    have hne : m.summary_deque.length ≠ m.summaryMax := by omega
    have hne2 : (ctx :: m.summary_deque).length ≠ m.summaryMax := by
      simp; omega
    simp only [handle_summary, dequeAppendLeft, if_neg hmax0, if_neg hne, if_neg hne2]
  · intro heq
    obtain ⟨hd, hp⟩ := handle_summary_sdeque_full env m ctx h0 heq
    refine ⟨hd, ?_, hp⟩
    rw [hd]
    simp only [List.length_dropLast, List.length_cons]
    omega

/-- A manager with window capacity 2 already holding one digest. -/
def mC2w : Manager Unit :=
  { mC2 with summary_deque := [digestOnly "d2"] }

/-- Witness for the amended C2: with capacity 2 and one resident digest,
the next insert reaches capacity and evicts the tail. -/
theorem C2_summary_window_eviction_witness :
    (handle_summary envU mC2w (digestOnly "d3")).1.summary_deque =
        (digestOnly "d3" :: mC2w.summary_deque).dropLast ∧
    (handle_summary envU mC2w (digestOnly "d3")).1.summary_deque.length + 1 =
        mC2w.summaryMax ∧
    (handle_summary envU mC2w (digestOnly "d3")).1.persistCalls =
        mC2w.persistCalls ++
          [(digestOnly "d3" :: mC2w.summary_deque).getLast (by simp)] :=
  (C2_summary_window_eviction envU mC2w (digestOnly "d3") (by decide)).2 (by decide)

/-- C3: offering a digest whose summary is the sentinel error string to
`_store_facts_if_worthy` performs zero Fact Store writes: both stores,
both audit lists and the embedding-call counter are untouched, and no
exception can escape; only the ghost log of offered digests grows. -/
theorem C3_sentinel_never_persisted {Emb : Type} (env : Env Emb)
    (m : Manager Emb) (ctx : Context) (h : ctx.summary = errorSummary) :
    store_facts_if_worthy env m ctx =
      ({ m with persistCalls := m.persistCalls ++ [ctx] }, .ok ()) := by
  simp only [store_facts_if_worthy, h, ne_eq, not_true_eq_false, if_false,
    ite_false]

/-- Witness for C3: a sentinel digest that even carries fact lists is
still skipped entirely. -/
theorem C3_sentinel_never_persisted_witness :
    store_facts_if_worthy envU
      { Manager.init BUFFER_SIZE SUMMARY_SIZE with
          expFactsStored := ["old"] }
      { summary := errorSummary, entity_relations := none,
        experiential_facts := some ["leak"], personal_facts := some ["leak2"],
        timestamp := "" } =
    ({ { Manager.init BUFFER_SIZE SUMMARY_SIZE with expFactsStored := ["old"] } with
        persistCalls :=
          ({ Manager.init BUFFER_SIZE SUMMARY_SIZE with
              expFactsStored := ["old"] } : Manager Unit).persistCalls ++
            [{ summary := errorSummary, entity_relations := none,
               experiential_facts := some ["leak"],
               personal_facts := some ["leak2"], timestamp := "" }] }, .ok ()) :=
  C3_sentinel_never_persisted envU _ _ rfl

/-- C6: whenever the structured-generation delegate fails (exception or
malformed output, both modelled as `.error`), `summarize_conversation`
returns a well-formed sentinel digest — summary equal to the fixed error
string and all three fact fields absent — instead of propagating the
failure (the function is total: it always returns a `Context`). -/
theorem C6_summarizer_sentinel_on_failure {Emb : Type} (env : Env Emb)
    (data : List Turn) (e : Unit) (h : env.llm data = .error e) :
    (summarize_conversation env data).summary = errorSummary ∧
    (summarize_conversation env data).entity_relations = none ∧
    (summarize_conversation env data).experiential_facts = none ∧
    (summarize_conversation env data).personal_facts = none := by
  simp [summarize_conversation, h]

/-- An environment whose delegate always fails. -/
def envFailLLM : Env Unit :=
  { envU with llm := fun _ => .error () }

/-- Witness for C6: a failing delegate call on a concrete two-turn batch
yields the sentinel digest. -/
theorem C6_summarizer_sentinel_on_failure_witness :
    (summarize_conversation envFailLLM [Turn.mk "hi" "hello"]).summary =
        errorSummary ∧
    (summarize_conversation envFailLLM [Turn.mk "hi" "hello"]).entity_relations =
        none ∧
    (summarize_conversation envFailLLM [Turn.mk "hi" "hello"]).experiential_facts =
        none ∧
    (summarize_conversation envFailLLM [Turn.mk "hi" "hello"]).personal_facts =
        none :=
  C6_summarizer_sentinel_on_failure envFailLLM [Turn.mk "hi" "hello"] () rfl

/-- When the embedding call succeeds, `_is_duplicate` issues exactly one
nearest-neighbor query and answers according to
`similarity = 1 - distance >= threshold` on the nearest record. -/
lemma is_duplicate_ok {Emb : Type} (env : Env Emb) (st : ChromaStore Emb)
    (n : Nat) (text : String) (e : Emb) (h : env.embedFn n text = .ok e) :
    is_duplicate env st n text =
      ({ st with queryCount := st.queryCount + 1 }, n + 1, isDupPure env st e) := by
  simp only [is_duplicate, h, queryNearest, isDupPure]
  cases hl : sortByDist (st.records.map fun r => (r.text, env.dist e r.embedding)) with
  | nil => simp
  | cons p rest =>
    obtain ⟨doc, d⟩ := p
    simp [List.take]

/-- When the embedding call fails, `_is_duplicate` swallows the error:
no query is issued and the text is reported as not a duplicate. -/
lemma is_duplicate_err {Emb : Type} (env : Env Emb) (st : ChromaStore Emb)
    (n : Nat) (text : String) (h : env.embedFn n text = .error ()) :
    is_duplicate env st n text = (st, n + 1, false) := by
  simp only [is_duplicate, h]

/-- Duplicate branch of `add_document`: nothing is stored, the duplicate
sentinel is returned, one embed call and one query were spent. -/
lemma add_document_dup {Emb : Type} (env : Env Emb) (st : ChromaStore Emb)
    (n : Nat) (text : String) (md : Option (List (String × String))) (e : Emb)
    (h : env.embedFn n text = .ok e) (hdup : isDupPure env st e = true) :
    add_document env st n text md =
      ({ st with queryCount := st.queryCount + 1 }, n + 1,
       .ok "DUPLICATE_SKIPPED") := by
  simp only [add_document, is_duplicate_ok env st n text e h, hdup]

/-- Fresh branch of `add_document`: the text is stored under the freshly
generated id with timestamp-stamped metadata, and that id is returned;
two embed calls and one query were spent. -/
lemma add_document_fresh {Emb : Type} (env : Env Emb) (st : ChromaStore Emb)
    (n : Nat) (text : String) (md : Option (List (String × String)))
    (e e2 : Emb) (h : env.embedFn n text = .ok e)
    (hdup : isDupPure env st e = false) (h2 : env.embedFn (n + 1) text = .ok e2) :
    add_document env st n text md =
      ({ st with
          records := st.records ++
            [⟨env.freshId st.uuidCount, text,
              dictInsert (md.getD []) "timestamp" env.now, e2⟩],
          uuidCount := st.uuidCount + 1,
          queryCount := st.queryCount + 1 }, n + 2,
       .ok (env.freshId st.uuidCount)) := by
  simp only [add_document, is_duplicate_ok env st n text e h, hdup, h2]

/-- C4: `add_document` embeds the text, performs exactly one
nearest-neighbor query (`queryCount` grows by exactly 1 in both
branches), and compares `similarity = 1 - distance` with the configured
threshold: at or above threshold it is a no-op returning
`"DUPLICATE_SKIPPED"` (records unchanged), otherwise it stores the text
under the freshly generated id with a creation-timestamp-stamped
metadata and returns that id.  Consequently two adds of near-identical
text (similarity at or above threshold) return the sentinel on the
second call with the item count still 1, while two adds of unrelated
text leave the count at 2. -/
theorem C4_add_document_dedup_contract {Emb : Type} (env : Env Emb) :
    (∀ (st : ChromaStore Emb) (n : Nat) (text : String)
        (md : Option (List (String × String))) (e : Emb),
      env.embedFn n text = .ok e → isDupPure env st e = true →
      add_document env st n text md =
        ({ st with queryCount := st.queryCount + 1 }, n + 1,
         .ok "DUPLICATE_SKIPPED")) ∧
    (∀ (st : ChromaStore Emb) (n : Nat) (text : String)
        (md : Option (List (String × String))) (e e2 : Emb),
      env.embedFn n text = .ok e → isDupPure env st e = false →
      env.embedFn (n + 1) text = .ok e2 →
      add_document env st n text md =
        ({ st with
            records := st.records ++
              [⟨env.freshId st.uuidCount, text,
                dictInsert (md.getD []) "timestamp" env.now, e2⟩],
            uuidCount := st.uuidCount + 1,
            queryCount := st.queryCount + 1 }, n + 2,
         .ok (env.freshId st.uuidCount))) ∧
    (∀ (text1 text2 : String) (e1 e2 e3 : Emb),
      env.embedFn 0 text1 = .ok e1 → env.embedFn 1 text1 = .ok e2 →
      env.embedFn 2 text2 = .ok e3 →
      env.threshold ≤ 1 - env.dist e3 e2 →
      (add_document env emptyStore 0 text1 none).2.2 = .ok (env.freshId 0) ∧
      (add_document env emptyStore 0 text1 none).1.records.length = 1 ∧
      (add_document env (add_document env emptyStore 0 text1 none).1
          (add_document env emptyStore 0 text1 none).2.1 text2 none).2.2 =
        .ok "DUPLICATE_SKIPPED" ∧
      (add_document env (add_document env emptyStore 0 text1 none).1
          (add_document env emptyStore 0 text1 none).2.1 text2 none).1.records.length
        = 1) ∧
    (∀ (text1 text2 : String) (e1 e2 e3 e4 : Emb),
      env.embedFn 0 text1 = .ok e1 → env.embedFn 1 text1 = .ok e2 →
      env.embedFn 2 text2 = .ok e3 → env.embedFn 3 text2 = .ok e4 →
      ¬ (env.threshold ≤ 1 - env.dist e3 e2) →
      (add_document env (add_document env emptyStore 0 text1 none).1
          (add_document env emptyStore 0 text1 none).2.1 text2 none).1.records.length
        = 2) := by
  refine ⟨?_, ?_, ?_, ?_⟩
  · intro st n text md e h hdup
    exact add_document_dup env st n text md e h hdup
  · intro st n text md e e2 h hdup h2
    exact add_document_fresh env st n text md e e2 h hdup h2
  · intro text1 text2 e1 e2 e3 h0 h1 h2 hsim
    have hdup0 : isDupPure env emptyStore e1 = false := rfl
    have hadd1 := add_document_fresh env emptyStore 0 text1 none e1 e2 h0 hdup0 h1
    rw [hadd1]
    have hdup1 : isDupPure env
        ({ (emptyStore : ChromaStore Emb) with
            records := (emptyStore : ChromaStore Emb).records ++
              [⟨env.freshId (emptyStore : ChromaStore Emb).uuidCount, text1,
                dictInsert (Option.getD none []) "timestamp" env.now, e2⟩],
            uuidCount := (emptyStore : ChromaStore Emb).uuidCount + 1,
            queryCount := (emptyStore : ChromaStore Emb).queryCount + 1 }) e3 = true := by
      simp [isDupPure, emptyStore, sortByDist, insertByDist]
      exact hsim
    have hadd2 := add_document_dup env _ 2 text2 none e3 h2 hdup1
    rw [hadd2]
    simp [emptyStore]
  · intro text1 text2 e1 e2 e3 e4 h0 h1 h2 h3 hsim
    have hdup0 : isDupPure env emptyStore e1 = false := rfl
    have hadd1 := add_document_fresh env emptyStore 0 text1 none e1 e2 h0 hdup0 h1
    rw [hadd1]
    have hdup1 : isDupPure env
        ({ (emptyStore : ChromaStore Emb) with
            records := (emptyStore : ChromaStore Emb).records ++
              [⟨env.freshId (emptyStore : ChromaStore Emb).uuidCount, text1,
                dictInsert (Option.getD none []) "timestamp" env.now, e2⟩],
            uuidCount := (emptyStore : ChromaStore Emb).uuidCount + 1,
            queryCount := (emptyStore : ChromaStore Emb).queryCount + 1 }) e3 = false := by
      simp [isDupPure, emptyStore, sortByDist, insertByDist]
      exact not_le.mp hsim
    have hadd2 := add_document_fresh env _ 2 text2 none e3 e4 h2 hdup1 h3
    rw [hadd2]
    simp [emptyStore]

/-- An environment over integer embeddings where every pair of texts is
near-identical (distance 0, similarity 1, at the threshold 1). -/
def envNear : Env Int :=
  { embedFn := fun _ _ => .ok 0
    dist := fun _ _ => 0
    threshold := 1
    llm := fun _ => .error ()
    now := "NOW"
    freshId := fun k => "id" ++ toString k }

/-- The same environment with every pair of texts unrelated (distance 1,
similarity 0, below the threshold 1). -/
def envFar : Env Int :=
  { envNear with dist := fun _ _ => 1 }

/-- Witness for C4: under `envNear` the second add of a near-identical
text is skipped with the store still holding one record; under `envFar`
two adds of unrelated texts leave two records. -/
theorem C4_add_document_dedup_contract_witness :
    ((add_document envNear emptyStore 0 "likes tea" none).2.2 =
        .ok (envNear.freshId 0) ∧
     (add_document envNear emptyStore 0 "likes tea" none).1.records.length = 1 ∧
     (add_document envNear (add_document envNear emptyStore 0 "likes tea" none).1
         (add_document envNear emptyStore 0 "likes tea" none).2.1
         "enjoys tea" none).2.2 = .ok "DUPLICATE_SKIPPED" ∧
     (add_document envNear (add_document envNear emptyStore 0 "likes tea" none).1
         (add_document envNear emptyStore 0 "likes tea" none).2.1
         "enjoys tea" none).1.records.length = 1) ∧
    (add_document envFar (add_document envFar emptyStore 0 "likes tea" none).1
        (add_document envFar emptyStore 0 "likes tea" none).2.1
        "owns a bike" none).1.records.length = 2 :=
  ⟨(C4_add_document_dedup_contract envNear).2.2.1 "likes tea" "enjoys tea"
      0 0 0 rfl rfl rfl (by decide),
   (C4_add_document_dedup_contract envFar).2.2.2 "likes tea" "owns a bike"
      0 0 0 0 rfl rfl rfl rfl (by decide)⟩

/-- Membership in an ordered insert. -/
lemma mem_insertByDist (p q : String × ℤ) (l : List (String × ℤ)) :
    q ∈ insertByDist p l ↔ q = p ∨ q ∈ l := by
  induction l with
  | nil => simp [insertByDist]
  | cons r rest ih =>
    simp only [insertByDist]
    split
    · simp only [List.mem_cons]
    · simp only [List.mem_cons, ih]
      tauto

/-- Ordered insert preserves sortedness by distance. -/
lemma pairwise_insertByDist (p : String × ℤ) (l : List (String × ℤ))
    (h : l.Pairwise (fun x y => x.2 ≤ y.2)) :
    (insertByDist p l).Pairwise (fun x y => x.2 ≤ y.2) := by
  induction l with
  | nil => simp [insertByDist]
  | cons r rest ih =>
    rw [List.pairwise_cons] at h
    obtain ⟨hr, hrest⟩ := h
    simp only [insertByDist]
    split
    · rename_i hle
      rw [List.pairwise_cons]
      constructor
      · intro x hx
        rcases List.mem_cons.mp hx with hx | hx
        · exact hx ▸ hle
        · exact le_trans hle (hr x hx)
      · rw [List.pairwise_cons]
        exact ⟨hr, hrest⟩
    · rename_i hgt
      rw [List.pairwise_cons]
      constructor
      · intro x hx
        rcases (mem_insertByDist p x rest).mp hx with hx | hx
        · exact hx ▸ le_of_not_le hgt
        · exact hr x hx
      · exact ih hrest

/-- The ranked result list of a query is sorted by ascending distance
(nearest first). -/
lemma pairwise_sortByDist (l : List (String × ℤ)) :
    (sortByDist l).Pairwise (fun x y => x.2 ≤ y.2) := by
  induction l with
  | nil => simp [sortByDist]
  | cons p rest ih => exact pairwise_insertByDist p (sortByDist rest) ih

/-- C7: the Fact Store read path never raises: an embedding failure is
absorbed into the empty string (state untouched), an empty store yields
the empty string, and on success the result is exactly the `- fact`
lines of the `k` retrieved facts in nearest-first (ascending-distance)
order. -/
theorem C7_get_relevant_info_total {Emb : Type} (env : Env Emb)
    (st : ChromaStore Emb) (n : Nat) (q : String) (k : Nat) :
    (env.embedFn n q = .error () → get_relevant_info env st n q k = (st, n + 1, "")) ∧
    (st.records = [] → (get_relevant_info env st n q k).2.2 = "") ∧
    (∀ e, env.embedFn n q = .ok e →
      get_relevant_info env st n q k =
        ({ st with queryCount := st.queryCount + 1 }, n + 1,
         String.intercalate "\n"
           (((sortByDist (st.records.map fun r => (r.text, env.dist e r.embedding))).take k).map
             fun p => "- " ++ p.1)) ∧
      (((sortByDist (st.records.map fun r => (r.text, env.dist e r.embedding))).take k).Pairwise
        fun x y => x.2 ≤ y.2)) := by
  refine ⟨?_, ?_, ?_⟩
  · intro h
    simp only [get_relevant_info, h]
  · intro h
    cases he : env.embedFn n q with
    | error e => simp only [get_relevant_info, he]
    | ok e =>
      simp only [get_relevant_info, he, queryNearest, h]
      simp [sortByDist]
      rfl
  · intro e he
    refine ⟨?_, ?_⟩
    · simp only [get_relevant_info, he, queryNearest]
    · exact (pairwise_sortByDist _).sublist (List.take_sublist _ _)

/-- An environment over integer embeddings whose embedding service is
down (every call fails). -/
def envErrEmbed : Env Int :=
  { envNear with embedFn := fun _ _ => .error () }

/-- A store holding two facts, both at distance 1 from any query. -/
def stW : ChromaStore Int :=
  { records :=
      [⟨"idA", "alpha", [("timestamp", "NOW")], 0⟩,
       ⟨"idB", "beta", [("timestamp", "NOW")], 0⟩],
    uuidCount := 2, queryCount := 0 }

/-- Witness for C7: a failing embedding call yields the empty string
with the store untouched; a successful query over `stW` returns both
facts as formatted nearest-first lines. -/
theorem C7_get_relevant_info_total_witness :
    get_relevant_info envErrEmbed stW 0 "question" 3 = (stW, 1, "") ∧
    get_relevant_info envFar stW 0 "question" 3 =
      ({ stW with queryCount := stW.queryCount + 1 }, 1,
       String.intercalate "\n"
         (((sortByDist (stW.records.map fun r =>
             (r.text, envFar.dist 0 r.embedding))).take 3).map
           fun p => "- " ++ p.1)) ∧
    (get_relevant_info envFar stW 0 "question" 3).2.2 = "- alpha\n- beta" :=
  ⟨(C7_get_relevant_info_total envErrEmbed stW 0 "question" 3).1 rfl,
   ((C7_get_relevant_info_total envFar stW 0 "question" 3).2.2 0 rfl).1,
   by decide⟩

/-- C10: when the embedding call inside the duplicate check fails, the
failure is swallowed (`_is_duplicate` answers `false` without having
queried the store — its `queryCount` is untouched), so `add_document`
proceeds and stores the text whenever the second embedding call
succeeds, regardless of how close an existing record is (no dedup check
was applied).  Moreover every add that reaches the storage branch spends
exactly two embedding-service calls for the same text — one in the
duplicate check and one for storage. -/
theorem C10_dupcheck_failure_swallowed {Emb : Type} (env : Env Emb)
    (st : ChromaStore Emb) (n : Nat) (text : String)
    (md : Option (List (String × String)))
    (h1 : env.embedFn n text = .error ()) :
    is_duplicate env st n text = (st, n + 1, false) ∧
    (∀ e2, env.embedFn (n + 1) text = .ok e2 →
      add_document env st n text md =
        ({ st with
            records := st.records ++
              [⟨env.freshId st.uuidCount, text,
                dictInsert (md.getD []) "timestamp" env.now, e2⟩],
            uuidCount := st.uuidCount + 1 }, n + 2,
         .ok (env.freshId st.uuidCount))) ∧
    (∀ (st2 : ChromaStore Emb) (n2 : Nat) (t2 : String) (e e2 : Emb),
      env.embedFn n2 t2 = .ok e → isDupPure env st2 e = false →
      env.embedFn (n2 + 1) t2 = .ok e2 →
      (add_document env st2 n2 t2 md).2.1 = n2 + 2) := by
  refine ⟨is_duplicate_err env st n text h1, ?_, ?_⟩
  · intro e2 h2
    simp only [add_document, is_duplicate_err env st n text h1, h2]
  · intro st2 n2 t2 e e2 he hdup h2
    rw [add_document_fresh env st2 n2 t2 md e e2 he hdup h2]

/-- An embedding service that fails on its very first call and recovers
afterwards, over an environment where every pair of texts is
near-identical (distance 0 at threshold 1). -/
def envFlaky : Env Int :=
  { envNear with embedFn := fun k _ => if k = 0 then .error () else .ok 0 }

/-- A store already holding the exact text about to be added, at
distance 0 from every query (a blatant near-duplicate). -/
def stDup : ChromaStore Int :=
  { records := [⟨"id0", "likes tea", [("timestamp", "NOW")], 0⟩],
    uuidCount := 1, queryCount := 0 }

/-- Witness for C10: with the first embedding call down, the duplicate
check answers `false` without querying, and the add then stores a
record that duplicates the resident one — the store grows to two
records holding the same text. -/
theorem C10_dupcheck_failure_swallowed_witness :
    is_duplicate envFlaky stDup 0 "likes tea" = (stDup, 1, false) ∧
    add_document envFlaky stDup 0 "likes tea" none =
      ({ stDup with
          records := stDup.records ++
            [⟨envFlaky.freshId stDup.uuidCount, "likes tea",
              dictInsert (Option.getD none []) "timestamp" envFlaky.now, 0⟩],
          uuidCount := stDup.uuidCount + 1 }, 2,
       .ok (envFlaky.freshId stDup.uuidCount)) ∧
    (add_document envFlaky stDup 0 "likes tea" none).1.records.map
        FactRecord.text = ["likes tea", "likes tea"] ∧
    (add_document envFlaky stDup 0 "likes tea" none).1.queryCount = 0 :=
  ⟨(C10_dupcheck_failure_swallowed envFlaky stDup 0 "likes tea" none rfl).1,
   (C10_dupcheck_failure_swallowed envFlaky stDup 0 "likes tea" none rfl).2.1
      0 rfl,
   by decide, by decide⟩

/-- C8: for every memory state and query the context blob is exactly the
fixed four-section template — the four section markers always appear, in
fixed order, even when every section body is empty — where section (a)
is the most recent `min(7, buffer length)` turns rendered as
`User:`/`AI:` lines in chronological order, (b) is the summary-window
summaries newest-first, and (c)/(d) are the top-`N_FACTS_CONTEXT`
experiential and personal facts for the query. -/
theorem C8_get_context_sections {Emb : Type} (env : Env Emb) (m : Manager Emb)
    (q : String) :
    ∃ a b c d : String,
      (get_context_for_ai env m q).2 =
        "\n--- Current Conversation ---\n" ++ a
          ++ "\n            \n--- Past Conversation Summary ---\n" ++ b
          ++ "\n            \n--- Relevant Long-Term Experiential Facts ---\n" ++ c
          ++ "\n\n--- Relevant Long-Term Personal Facts ---\n" ++ d ++ "\n" ∧
      a = String.intercalate "\n"
        ((m.buffer_deque.drop (m.buffer_deque.length - 7)).map
          fun t => "User: " ++ t.user ++ "\nAI: " ++ t.ai) ∧
      b = String.intercalate "\n" (m.summary_deque.map Context.summary) ∧
      c = (get_relevant_info env m.experiential_store m.embedCalls q
            N_FACTS_CONTEXT).2.2 ∧
      d = (get_relevant_info env m.personal_store (m.embedCalls + 1) q
            N_FACTS_CONTEXT).2.2 := by
  have hcnt : ∀ (st : ChromaStore Emb) (n : Nat),
      (get_relevant_info env st n q N_FACTS_CONTEXT).2.1 = n + 1 := by
    intro st n
    cases h : env.embedFn n q <;> simp [get_relevant_info, h, queryNearest]
  rcases hE : get_relevant_info env m.experiential_store m.embedCalls q
      N_FACTS_CONTEXT with ⟨est, n1, ei⟩
  have hn1 : n1 = m.embedCalls + 1 := by
    have h := hcnt m.experiential_store m.embedCalls
    rw [hE] at h
    exact h
  rcases hP : get_relevant_info env m.personal_store n1 q
      N_FACTS_CONTEXT with ⟨pst, n2, pi⟩
  refine ⟨_, _, ei, pi, ?_, rfl, rfl, rfl, ?_⟩
  · simp only [get_context_for_ai, hE, hP]
  · rw [← hn1, hP]

/-- A manager with turn-buffer capacity 4 (the C5 scenario). -/
def mC5 : Manager Unit := Manager.init 4 SUMMARY_SIZE

/-- Six driver turns fed to `process_turn` in sequence. -/
def sixTurns : List (String × String) :=
  [("u1", "a1"), ("u2", "a2"), ("u3", "a3"), ("u4", "a4"), ("u5", "a5"),
   ("u6", "a6")]

/-- C5 counterexample: with buffer capacity 4, feeding turns 5 and 6
after the first half-drain does NOT leave the buffer holding 4 turns
without further draining — the 6th turn makes the buffer reach capacity
again and a second half-drain fires, so after six turns the buffer holds
2 turns and the summarizer has been called twice, not once. -/
theorem C5_counterexample :
    ((runTurns envU mC5 sixTurns).1.buffer_deque =
        [Turn.mk "u5" "a5", Turn.mk "u6" "a6"] ∧
     (runTurns envU mC5 sixTurns).1.summarizerCalls =
        [[Turn.mk "u1" "a1", Turn.mk "u2" "a2"],
         [Turn.mk "u3" "a3", Turn.mk "u4" "a4"]]) ∧
    ¬ ((runTurns envU mC5 sixTurns).1.buffer_deque.length = 4 ∧
       (runTurns envU mC5 sixTurns).1.summarizerCalls.length = 1) := by
  refine ⟨⟨?_, ?_⟩, ?_⟩ <;> decide

/-- C5 (amended): buffer capacity 4, feed 4 turns → exactly turns 1–2
are drained and summarized; feeding turns 5–6 reaches capacity again and
triggers a second half-drain of turns 3–4, leaving turns 5–6 buffered;
`end_conversation` then summarizes the remaining 2 turns (not 4) as one
final digest, persists each qualifying fact exactly once (audit list and
store contents list every fact one time), clears both deques and returns
the confirmation string. -/
theorem C5_amended :
    (runTurns envU mC5 sixTurns).2 = .ok () ∧
    (end_conversation envU (runTurns envU mC5 sixTurns).1).1.summarizerCalls =
      [[Turn.mk "u1" "a1", Turn.mk "u2" "a2"],
       [Turn.mk "u3" "a3", Turn.mk "u4" "a4"],
       [Turn.mk "u5" "a5", Turn.mk "u6" "a6"]] ∧
    (end_conversation envU (runTurns envU mC5 sixTurns).1).1.expFactsStored =
      ["fact-u3", "fact-u1", "fact-u5"] ∧
    (end_conversation envU (runTurns envU mC5 sixTurns).1).1.experiential_store.records.map
        FactRecord.text = ["fact-u3", "fact-u1", "fact-u5"] ∧
    (end_conversation envU (runTurns envU mC5 sixTurns).1).1.buffer_deque = [] ∧
    (end_conversation envU (runTurns envU mC5 sixTurns).1).1.summary_deque = [] ∧
    (end_conversation envU (runTurns envU mC5 sixTurns).1).2 =
      .ok "Conversation ended and stored successfully." := by
  refine ⟨?_, ?_, ?_, ?_, ?_, ?_, ?_⟩ <;> first
    | decide
    | rfl

/-- When the embedding service never fails, the per-category fact loop
never raises and appends every non-blank fact to the audit list —
whether `add_document` stored it or skipped it as a duplicate. -/
lemma storeFactLoop_all_ok {Emb : Type} (env : Env Emb)
    (hok : ∀ k t, ∃ e, env.embedFn k t = Except.ok e) :
    ∀ (facts : List String) (st : ChromaStore Emb) (n : Nat)
      (audit : List String),
      (storeFactLoop env st n audit facts).2.2.1 =
        audit ++ facts.filter (fun f => decide (f ≠ "" ∧ pyStrip f ≠ "")) ∧
      (storeFactLoop env st n audit facts).2.2.2 = .ok () := by
  intro facts
  induction facts with
  | nil => intro st n audit; simp [storeFactLoop]
  | cons f rest ih =>
    intro st n audit
    by_cases hf : f ≠ "" ∧ pyStrip f ≠ ""
    · have hpred : (fun g => decide (g ≠ "" ∧ pyStrip g ≠ "")) f = true := by
        simpa using hf
      have hfilter : List.filter (fun g => decide (g ≠ "" ∧ pyStrip g ≠ "")) (f :: rest)
          = f :: List.filter (fun g => decide (g ≠ "" ∧ pyStrip g ≠ "")) rest :=
        List.filter_cons_of_pos hpred
      obtain ⟨e1, he1⟩ := hok n f
      cases hdup : isDupPure env st e1 with
      | true =>
        have hadd := add_document_dup env st n f none e1 he1 hdup
        simp only [storeFactLoop, if_pos hf, hadd]
        obtain ⟨h1, h2⟩ := ih ({ st with queryCount := st.queryCount + 1 })
          (n + 1) (audit ++ [f])
        refine ⟨?_, h2⟩
        rw [h1, hfilter]
        simp
      | false =>
        obtain ⟨e2, he2⟩ := hok (n + 1) f
        have hadd := add_document_fresh env st n f none e1 e2 he1 hdup he2
        simp only [storeFactLoop, if_pos hf, hadd]
        obtain ⟨h1, h2⟩ := ih _ (n + 2) (audit ++ [f])
        refine ⟨?_, h2⟩
        rw [h1, hfilter]
        simp
    · have hpred : ¬ ((fun g => decide (g ≠ "" ∧ pyStrip g ≠ "")) f = true) := by
        simpa using hf
      have hfilter : List.filter (fun g => decide (g ≠ "" ∧ pyStrip g ≠ "")) (f :: rest)
          = List.filter (fun g => decide (g ≠ "" ∧ pyStrip g ≠ "")) rest :=
        List.filter_cons_of_neg hpred
      simp only [storeFactLoop, if_neg hf]
      obtain ⟨h1, h2⟩ := ih st n audit
      exact ⟨by rw [h1, hfilter], h2⟩

/-- C9 (amended): when a non-sentinel digest is persisted and the
embedding service is up, every non-blank fact is appended to the
session audit list regardless of whether its `add_document` call stored
it or returned the duplicate sentinel — duplicate-skipped facts
accumulate in the audit lists exactly like freshly-stored ones. -/
theorem C9_audit_lists_include_duplicates {Emb : Type} (env : Env Emb)
    (m : Manager Emb) (ctx : Context)
    (hok : ∀ k t, ∃ e, env.embedFn k t = Except.ok e)
    (hns : ctx.summary ≠ errorSummary) :
    (store_facts_if_worthy env m ctx).2 = .ok () ∧
    (store_facts_if_worthy env m ctx).1.expFactsStored =
      m.expFactsStored ++ (ctx.experiential_facts.getD []).filter
        (fun f => decide (f ≠ "" ∧ pyStrip f ≠ "")) ∧
    (store_facts_if_worthy env m ctx).1.persFactsStored =
      m.persFactsStored ++ (ctx.personal_facts.getD []).filter
        (fun f => decide (f ≠ "" ∧ pyStrip f ≠ "")) := by
  simp only [store_facts_if_worthy, if_pos hns]
  obtain ⟨hea, hr1⟩ := storeFactLoop_all_ok env hok
    (ctx.experiential_facts.getD []) m.experiential_store m.embedCalls
    m.expFactsStored
  rcases hE : storeFactLoop env m.experiential_store m.embedCalls
      m.expFactsStored (ctx.experiential_facts.getD []) with ⟨est, n1, ea, r1⟩
  rw [hE] at hea hr1
  simp only at hea hr1
  subst hr1
  dsimp only
  obtain ⟨hpa, hr2⟩ := storeFactLoop_all_ok env hok
    (ctx.personal_facts.getD []) m.personal_store n1 m.persFactsStored
  exact ⟨hr2, hea, hpa⟩

/-- A digest carrying one experiential fact that duplicates a fact
already resident in the store. -/
def ctxDup : Context :=
  { summary := "session facts", entity_relations := none,
    experiential_facts := some ["likes tea"], personal_facts := none,
    timestamp := "" }

/-- A manager whose experiential store already holds "likes tea" at
distance 0 from every query (so the add is skipped as a duplicate). -/
def mDup : Manager Int :=
  { Manager.init BUFFER_SIZE SUMMARY_SIZE with experiential_store := stDup }

/-- C9 counterexample: persisting `ctxDup` makes `add_document` return
the duplicate sentinel (the store still holds exactly one record), yet
the session audit list still receives the fact — refuting the claim
that only freshly-stored facts accumulate in the audit lists. -/
theorem C9_counterexample :
    ((store_facts_if_worthy envNear mDup ctxDup).2 = .ok () ∧
     (store_facts_if_worthy envNear mDup ctxDup).1.experiential_store.records.length
        = 1 ∧
     (store_facts_if_worthy envNear mDup ctxDup).1.expFactsStored =
        ["likes tea"]) ∧
    (store_facts_if_worthy envNear mDup ctxDup).1.expFactsStored ≠
      mDup.expFactsStored := by
  refine ⟨⟨?_, ?_, ?_⟩, ?_⟩ <;> first
    | decide
    | rfl

/-- Witness for the amended C9 at the duplicate scenario: the audit list
receives the duplicate-skipped fact. -/
theorem C9_audit_lists_include_duplicates_witness :
    (store_facts_if_worthy envNear mDup ctxDup).2 = .ok () ∧
    (store_facts_if_worthy envNear mDup ctxDup).1.expFactsStored =
      mDup.expFactsStored ++ (ctxDup.experiential_facts.getD []).filter
        (fun f => decide (f ≠ "" ∧ pyStrip f ≠ "")) ∧
    (store_facts_if_worthy envNear mDup ctxDup).1.persFactsStored =
      mDup.persFactsStored ++ (ctxDup.personal_facts.getD []).filter
        (fun f => decide (f ≠ "" ∧ pyStrip f ≠ "")) :=
  C9_audit_lists_include_duplicates envNear mDup ctxDup
    (fun _ _ => ⟨0, rfl⟩) (by decide)
